import Mathlib

/-!
Verification of the SHIELD SQL-injection detection engine
(`backend/app/services/sql_injection_detector.py`).

Modelling conventions:
* Python `str` values are modelled as `List Char` (`Query`); a possibly
  non-string argument is modelled as `Option Query` (`none` stands for any
  non-string value such as `None`).
* Python `float` arithmetic is modelled by exact rationals `ℚ`; the constants
  involved (0.5, 0.85, 0.95, 0.99, divisions by 50 and 100) are exact.
* `str.lower` is modelled by `Char.toLower` (faithful on ASCII input).
* `re.findall` is modelled by an executable backtracking regular-expression
  engine (`RE`, `mtch`, `findallCount`) over an AST transcribed from each
  pattern literal of the source.  The engine uses an explicit fuel argument
  for structural termination; the fuel bound is generous for the pattern
  sizes involved.
* The Shannon-entropy feature (`np.log2` over floats) has no exact rational
  value, so the single entropy slot is a parameter `ent : Query → ℚ` of the
  feature extractor; no claim depends on its value.
* Indicator message strings (Python f-strings) are modelled by an inductive
  type with one constructor per f-string template of the source.
-/

namespace Shield

/-- Python strings are modelled as lists of characters. -/
abbrev Query := List Char

/-- The single-quote character (written via its code point). -/
def sq : Char := Char.ofNat 39

/-- The double-quote character. -/
def dq : Char := Char.ofNat 34

/-- Python `str.isspace` / regex `\s` on ASCII: space, tab, newline,
carriage return, vertical tab, form feed. -/
def pyIsSpace (c : Char) : Bool :=
  c = ' ' || c = '\t' || c = '\n' || c = '\r' || c = '\x0b' || c = '\x0c'

/-- Regex `\w`: alphanumeric or underscore. -/
def pyIsWordChar (c : Char) : Bool :=
  c.isAlphanum || c = '_'

/-- Python `str.lower`, modelled characterwise. -/
def pyLower (q : Query) : Query := q.map Char.toLower

/-- Auxiliary scanner for Python `str.count`: non-overlapping occurrences,
scanning left to right; `skip` counts characters still covered by the last
counted occurrence. -/
def pyCntAux (sub : Query) : Query → Nat → Nat
  | [], _ => 0
  | _ :: t, skip + 1 => pyCntAux sub t skip
  | c :: t, 0 =>
    if sub.isPrefixOf (c :: t) then 1 + pyCntAux sub t (sub.length - 1)
    else pyCntAux sub t 0

/-- Python `s.count(sub)`: number of non-overlapping occurrences of `sub`
in `s` (Python returns `len(s)+1` for the empty needle). -/
def pyCount (sub s : Query) : Nat :=
  if sub = [] then s.length + 1 else pyCntAux sub s 0

/-- Python `sub in s`: substring containment. -/
def pyIn (sub : Query) : Query → Bool
  | [] => sub.isPrefixOf []
  | c :: t => sub.isPrefixOf (c :: t) || pyIn sub t

/-- Regular-expression AST covering the constructs used by the source's
pattern literals. -/
inductive RE where
  | eps : RE
  | ch (c : Char) : RE
  | cls (cs : List Char) : RE
  | dot : RE
  | dotAll : RE
  | spaceC : RE
  | digitC : RE
  | wordC : RE
  | cat (a b : RE) : RE
  | alt (a b : RE) : RE
  | starG (a : RE) : RE
  | starL (a : RE) : RE
  | wb : RE
  | eol : RE
  | eolM : RE
deriving Repr

/-- Word-boundary test (`\b`) at position `i` of `s`. -/
def wbAt (s : List Char) (i : Nat) : Bool :=
  let before := if i = 0 then false else
    match s[i - 1]? with
    | some c => pyIsWordChar c
    | none => false
  let after := match s[i]? with
    | some c => pyIsWordChar c
    | none => false
  before != after

/-- End-of-string test for `$` without `re.MULTILINE`: at the end, or just
before a final newline. -/
def eolAt (s : List Char) (i : Nat) : Bool :=
  i = s.length || (i + 1 = s.length && s[i]? = some '\n')

/-- End-of-line test for `$` with `re.MULTILINE`: at the end, or before any
newline. -/
def eolMAt (s : List Char) (i : Nat) : Bool :=
  i = s.length || s[i]? = some '\n'

/-- Backtracking matcher in continuation-passing style.  `mtch fuel r s i k`
tries to match `r` in `s` starting at position `i` and calls `k` on the end
position of each candidate, in the backtracking preference order of Python's
`re` (greedy `*` longest-first, lazy `*?` shortest-first, alternation
left-first).  Fuel only bounds recursion depth; it is chosen large enough by
the callers. -/
def mtch : Nat → RE → List Char → Nat → (Nat → Option Nat) → Option Nat
  | 0, _, _, _, _ => none
  | f + 1, r, s, i, k =>
    match r with
    | .eps => k i
    | .ch c =>
      match s[i]? with
      | some d => if d = c then k (i + 1) else none
      | none => none
    | .cls cs =>
      match s[i]? with
      | some d => if d ∈ cs then k (i + 1) else none
      | none => none
    | .dot =>
      match s[i]? with
      | some d => if d = '\n' then none else k (i + 1)
      | none => none
    | .dotAll =>
      match s[i]? with
      | some _ => k (i + 1)
      | none => none
    | .spaceC =>
      match s[i]? with
      | some d => if pyIsSpace d then k (i + 1) else none
      | none => none
    | .digitC =>
      match s[i]? with
      | some d => if d.isDigit then k (i + 1) else none
      | none => none
    | .wordC =>
      match s[i]? with
      | some d => if pyIsWordChar d then k (i + 1) else none
      | none => none
    | .cat a b => mtch f a s i (fun j => mtch f b s j k)
    | .alt a b => (mtch f a s i k).orElse (fun _ => mtch f b s i k)
    | .starG a =>
      (mtch f a s i (fun j => if i < j then mtch f (.starG a) s j k else none)).orElse
        (fun _ => k i)
    | .starL a =>
      (k i).orElse
        (fun _ => mtch f a s i (fun j => if i < j then mtch f (.starL a) s j k else none))
    | .wb => if wbAt s i then k i else none
    | .eol => if eolAt s i then k i else none
    | .eolM => if eolMAt s i then k i else none

/-- Fuel bound for one match attempt: generous for the pattern sizes used. -/
def reFuel (s : List Char) : Nat := (s.length + 2) * 64

/-- End position of the preferred match of `r` at position `i`, if any. -/
def matchEndAt (r : RE) (s : List Char) (i : Nat) : Option Nat :=
  mtch (reFuel s) r s i some

/-- First match at or after position `i` (as in `re` scanning). -/
def searchFrom : Nat → RE → List Char → Nat → Option (Nat × Nat)
  | 0, _, _, _ => none
  | f + 1, r, s, i =>
    match matchEndAt r s i with
    | some e => some (i, e)
    | none => if i < s.length then searchFrom f r s (i + 1) else none

/-- Scanning loop of `re.findall`, counting non-overlapping matches. -/
def findallAux : Nat → RE → List Char → Nat → Nat
  | 0, _, _, _ => 0
  | f + 1, r, s, pos =>
    match searchFrom (s.length + 1) r s pos with
    | none => 0
    | some (st, e) => 1 + findallAux f r s (max e (st + 1))

/-- Number of matches returned by `re.findall(pattern, s)`. -/
def findallCount (r : RE) (s : List Char) : Nat :=
  findallAux (s.length + 1) r s 0

/-- Concatenation of a list of regexes. -/
def cats (l : List RE) : RE := l.foldr RE.cat RE.eps

/-- Literal string as a regex. -/
def lit (x : String) : RE := cats (x.data.map RE.ch)

/-- Regex `\s*`. -/
def sstar : RE := RE.starG RE.spaceC

/-- Regex `\s+`. -/
def splus : RE := RE.cat RE.spaceC sstar

/-- Regex `\d+`. -/
def dplus : RE := RE.cat RE.digitC (RE.starG RE.digitC)

/-- Regex `\w+`. -/
def wplus : RE := RE.cat RE.wordC (RE.starG RE.wordC)

/-- Character class `[0-9a-f]`. -/
def hexLower : RE := RE.cls "0123456789abcdef".data

/-- Character class `[0-9a-fA-F]`. -/
def hexFull : RE := RE.cls "0123456789abcdefABCDEF".data

/-- Pattern `(\bor\b|\band\b)\s*\d+\s*=\s*\d+` (classic 1=1 attacks). -/
def pat_tautology : RE :=
  cats [RE.alt (cats [RE.wb, lit "or", RE.wb]) (cats [RE.wb, lit "and", RE.wb]),
        sstar, dplus, sstar, RE.ch '=', sstar, dplus]

/-- Pattern `union\s+select`. -/
def pat_union_select : RE := cats [lit "union", splus, lit "select"]

/-- Pattern `drop\s+table`. -/
def pat_drop_table : RE := cats [lit "drop", splus, lit "table"]

/-- Pattern `exec\s*\(`. -/
def pat_exec_call : RE := cats [lit "exec", sstar, RE.ch '(']

/-- Pattern `%[0-9a-f]{2}` (URL encoding). -/
def pat_url_enc : RE := cats [RE.ch '%', hexLower, hexLower]

/-- Pattern `0x[0-9a-f]+` (hexadecimal encoding). -/
def pat_hex : RE := cats [lit "0x", RE.cat hexLower (RE.starG hexLower)]

/-- Pattern `--\s*$` (SQL comments, no MULTILINE). -/
def pat_sql_comment : RE := cats [lit "--", sstar, RE.eol]

/-- Pattern `/\*.*?\*/` (block comments, lazy dot, no DOTALL). -/
def pat_block_comment : RE := cats [lit "/*", RE.starL RE.dot, lit "*/"]

/-- Pattern `@@\w+` (system variables). -/
def pat_sysvar : RE := cats [lit "@@", wplus]

/-- Pattern `char\s*\(\s*\d+` (character encoding). -/
def pat_char_call : RE := cats [lit "char", sstar, RE.ch '(', sstar, dplus]

/-- Pattern `waitfor\s+delay`. -/
def pat_waitfor : RE := cats [lit "waitfor", splus, lit "delay"]

/-- Pattern `benchmark\s*\(`. -/
def pat_benchmark_call : RE := cats [lit "benchmark", sstar, RE.ch '(']

/-- Pattern `pg_sleep\s*\(`. -/
def pat_pg_sleep_call : RE := cats [lit "pg_sleep", sstar, RE.ch '(']

/-- Pattern `load_file\s*\(`. -/
def pat_load_file_call : RE := cats [lit "load_file", sstar, RE.ch '(']

/-- Pattern `into\s+outfile`. -/
def pat_into_outfile : RE := cats [lit "into", splus, lit "outfile"]

/-- Pattern `cmdshell`. -/
def pat_cmdshell : RE := lit "cmdshell"

/-- Pattern `<\s*script`. -/
def pat_lt_script : RE := cats [RE.ch '<', sstar, lit "script"]

/-- Pattern `script\s*>`. -/
def pat_script_gt : RE := cats [lit "script", sstar, RE.ch '>']

/-- Pattern `javascript\s*:`. -/
def pat_javascript : RE := cats [lit "javascript", sstar, RE.ch ':']

/-- Pattern `information_schema`. -/
def pat_info_schema : RE := lit "information_schema"

/-- Pattern `current_user`. -/
def pat_current_user : RE := lit "current_user"

/-- Pattern `session_user`. -/
def pat_session_user : RE := lit "session_user"

/-- Pattern `system_user`. -/
def pat_system_user : RE := lit "system_user"

/-- Pattern `host_name\s*\(`. -/
def pat_host_name : RE := cats [lit "host_name", sstar, RE.ch '(']

/-- Pattern `db_name\s*\(`. -/
def pat_db_name : RE := cats [lit "db_name", sstar, RE.ch '(']

/-- Pattern `@@version`. -/
def pat_at_version : RE := lit "@@version"

/-- Pattern `@@servername`. -/
def pat_at_servername : RE := lit "@@servername"

/-- Pattern `ascii\s*\(`. -/
def pat_ascii_call : RE := cats [lit "ascii", sstar, RE.ch '(']

/-- Pattern `substring\s*\(`. -/
def pat_substring_call : RE := cats [lit "substring", sstar, RE.ch '(']

/-- Pattern `openrowset` (fallback detector variant, no parenthesis). -/
def pat_openrowset : RE := lit "openrowset"

/-- Pattern `openrowset\s*\(` (feature-extractor variant). -/
def pat_openrowset_call : RE := cats [lit "openrowset", sstar, RE.ch '(']

/-- Pattern `bulk\s+insert`. -/
def pat_bulk_insert : RE := cats [lit "bulk", splus, lit "insert"]

/-- Pattern `load\s+data\s+infile`. -/
def pat_load_data_infile : RE := cats [lit "load", splus, lit "data", splus, lit "infile"]

/-- Pattern `grant\s+`. -/
def pat_grant : RE := cats [lit "grant", splus]

/-- Pattern `revoke\s+`. -/
def pat_revoke : RE := cats [lit "revoke", splus]

/-- Pattern `shutdown`. -/
def pat_shutdown : RE := lit "shutdown"

/-- Pattern `kill\s+\d+`. -/
def pat_kill : RE := cats [lit "kill", splus, dplus]

/-- Pattern `\w+\s*\(` (function-call-like tokens). -/
def pat_func_call : RE := cats [wplus, sstar, RE.ch '(']

/-- Pattern `%[0-9a-fA-F]{2}` (URL encoding, applied to the raw text). -/
def pat_url_enc_full : RE := cats [RE.ch '%', hexFull, hexFull]

/-- Pattern `0x[0-9a-fA-F]+`. -/
def pat_hex_full : RE := cats [lit "0x", RE.cat hexFull (RE.starG hexFull)]

/-- Pattern `--.*$` with `re.MULTILINE`. -/
def pat_line_comment_ml : RE := cats [lit "--", RE.starG RE.dot, RE.eolM]

/-- Pattern `/\*.*?\*/` with `re.DOTALL`. -/
def pat_block_comment_dotall : RE := cats [lit "/*", RE.starL RE.dotAll, lit "*/"]

/-- Whole-word count: `len(re.findall(r'\b' + keyword + r'\b', text))`. -/
def wholeWordCount (kw : Query) (s : Query) : Nat :=
  findallCount (cats [RE.wb, cats (kw.map RE.ch), RE.wb]) s

/-- Indicator messages appended by `FallbackSQLDetector.analyze_query`, one
constructor per f-string template of the source. -/
inductive Indicator where
  | sqlKeywordFound (keyword : Query) (count : Nat) : Indicator
  | attackPatternDetected (description : String) : Indicator
  | suspiciousCharFound (c : Query) (count : Nat) : Indicator
  | unbalancedSingleQuotes : Indicator
  | unbalancedDoubleQuotes : Indicator
  | unusuallyLongQuery : Indicator
  | multipleFunctionCalls (count : Nat) : Indicator
deriving DecidableEq, Repr

/-- Result of `FallbackSQLDetector.analyze_query`:
`{'risk_score': ..., 'indicators': [...]}`. -/
structure AnalysisResult where
  risk_score : Nat
  indicators : List Indicator
deriving DecidableEq, Repr

namespace FallbackSQLDetector

/-- `self.sql_keywords`: high-risk SQL keywords with weights, in source
(dict insertion) order. -/
def sql_keywords : List (Query × Nat) :=
  [("union".data, 5), ("drop".data, 10), ("delete".data, 6), ("exec".data, 8),
   ("execute".data, 8), ("insert".data, 4), ("update".data, 4), ("select".data, 3),
   ("create".data, 5), ("alter".data, 6), ("declare".data, 6), ("cast".data, 4),
   ("convert".data, 4), ("information_schema".data, 10), ("sysobjects".data, 8),
   ("syscolumns".data, 8), ("mysql".data, 5), ("version".data, 4),
   ("database".data, 4), ("user".data, 3), ("concat".data, 5),
   ("substring".data, 4), ("waitfor".data, 8), ("benchmark".data, 8),
   ("pg_sleep".data, 8), ("load_file".data, 10), ("into outfile".data, 10),
   ("cmdshell".data, 10), ("xp_".data, 8), ("sp_".data, 6)]

/-- `self.attack_patterns`: high-risk attack patterns with descriptions, in
source order. -/
def attack_patterns : List (RE × String) :=
  [(pat_tautology, "1=1 attacks"),
   (pat_union_select, "Union-based attacks"),
   (pat_drop_table, "Table dropping"),
   (pat_exec_call, "Code execution"),
   (pat_url_enc, "URL encoding"),
   (pat_hex, "Hexadecimal"),
   (pat_sql_comment, "SQL comments"),
   (pat_block_comment, "Block comments"),
   (pat_sysvar, "System variables"),
   (pat_char_call, "Character encoding"),
   (pat_waitfor, "Time-based attacks"),
   (pat_benchmark_call, "MySQL benchmark"),
   (pat_load_file_call, "File operations"),
   (pat_into_outfile, "File writing"),
   (pat_cmdshell, "Command shell"),
   (pat_lt_script, "XSS patterns"),
   (pat_javascript, "XSS patterns"),
   (pat_info_schema, "Information gathering"),
   (pat_current_user, "User functions"),
   (pat_openrowset, "Remote data access"),
   (pat_bulk_insert, "Bulk operations")]

/-- `suspicious_chars = ["'", '"', ';', '--', '/*', '*/', '%', '=']`. -/
def suspicious_chars : List Query :=
  [[sq], [dq], [';'], ['-', '-'], ['/', '*'], ['*', '/'], ['%'], ['=']]

/-- One step of the keyword loop: if the keyword occurs in the lowered query,
add `count * weight` and append one indicator. -/
def keywordCheck (ql : Query) (p : Query × Nat) : Nat × List Indicator :=
  if pyIn p.1 ql then
    (pyCount p.1 ql * p.2, [.sqlKeywordFound p.1 (pyCount p.1 ql)])
  else (0, [])

/-- One step of the attack-pattern loop: `matches * 5` and one indicator when
the pattern matches at least once. -/
def patternCheck (ql : Query) (p : RE × String) : Nat × List Indicator :=
  let nMatches := findallCount p.1 ql
  if 0 < nMatches then (nMatches * 5, [.attackPatternDetected p.2]) else (0, [])

/-- One step of the suspicious-character loop (on the original query):
`count * 2` and one indicator when the count exceeds 1. -/
def charCheck (q : Query) (c : Query) : Nat × List Indicator :=
  let count := pyCount c q
  if 1 < count then (count * 2, [.suspiciousCharFound c count]) else (0, [])

/-- Quote-imbalance check for single quotes: a flat 15 when the count of
`'` in the original query is odd. -/
def singleQuoteCheck (q : Query) : Nat × List Indicator :=
  if pyCount [sq] q % 2 = 1 then (15, [.unbalancedSingleQuotes]) else (0, [])

/-- Quote-imbalance check for double quotes. -/
def doubleQuoteCheck (q : Query) : Nat × List Indicator :=
  if pyCount [dq] q % 2 = 1 then (15, [.unbalancedDoubleQuotes]) else (0, [])

/-- Length heuristic: a flat 10 for queries longer than 200 characters. -/
def lengthCheck (q : Query) : Nat × List Indicator :=
  if 200 < q.length then (10, [.unusuallyLongQuery]) else (0, [])

/-- Function-call heuristic: `count * 2` when more than 3 matches of
`\w+\s*\(` occur in the lowered query. -/
def funcallCheck (ql : Query) : Nat × List Indicator :=
  let function_calls := findallCount pat_func_call ql
  if 3 < function_calls then
    (function_calls * 2, [.multipleFunctionCalls function_calls])
  else (0, [])

/-- Total score contributed by a table-driven loop of checks. -/
def checkScore (f : α → Nat × List Indicator) (xs : List α) : Nat :=
  (xs.map (fun x => (f x).1)).sum

/-- Indicators appended by a table-driven loop of checks, in table order. -/
def checkInds (f : α → Nat × List Indicator) (xs : List α) : List Indicator :=
  (xs.map (fun x => (f x).2)).flatten

/-- `FallbackSQLDetector.analyze_query`: accumulative pattern-based risk
scoring.  The guard mirrors `if not query or not isinstance(query, str)`
for the string case. -/
def analyze_query (query : Query) : AnalysisResult :=
  if query = [] then { risk_score := 0, indicators := [] }
  else
    let ql := pyLower query
    { risk_score :=
        checkScore (keywordCheck ql) sql_keywords
          + checkScore (patternCheck ql) attack_patterns
          + checkScore (charCheck query) suspicious_chars
          + (singleQuoteCheck query).1 + (doubleQuoteCheck query).1
          + (lengthCheck query).1 + (funcallCheck ql).1,
      indicators :=
        checkInds (keywordCheck ql) sql_keywords
          ++ checkInds (patternCheck ql) attack_patterns
          ++ checkInds (charCheck query) suspicious_chars
          ++ (singleQuoteCheck query).2 ++ (doubleQuoteCheck query).2
          ++ (lengthCheck query).2 ++ (funcallCheck ql).2 }

end FallbackSQLDetector

/-- The verdict dictionary returned by `EnhancedSQLInjectionDetector.predict`.
The `model_accuracy` key is present only on the ML path, hence an `Option`. -/
structure Verdict where
  query : Option Query
  prediction : String
  is_malicious : Bool
  risk_score : Nat
  confidence : ℚ
  indicators : List Indicator
  method : String
  model_accuracy : Option ℚ
deriving DecidableEq, Repr

/-- The spec's two-valued method tag for a verdict. -/
inductive MethodKind where
  | ModelBacked : MethodKind
  | HeuristicOnly : MethodKind
deriving DecidableEq, Repr

/-- Abstraction from the source's `method` strings (`validation`,
`ml_model`, `fallback_patterns`) to the spec's two-valued tag: only the
ML path is model-backed. -/
def methodKind (v : Verdict) : MethodKind :=
  if v.method = "ml_model" then .ModelBacked else .HeuristicOnly

namespace EnhancedSQLInjectionDetector

/-- Local `sql_keywords` dict of `enhanced_feature_extraction`, in source
(dict insertion) order, 42 entries. -/
def sql_keywords : List (Query × Nat) :=
  [("drop".data, 5), ("exec".data, 5), ("execute".data, 5),
   ("information_schema".data, 5), ("load_file".data, 5),
   ("into outfile".data, 5), ("cmdshell".data, 5), ("xp_cmdshell".data, 5),
   ("union".data, 4), ("delete".data, 4), ("sysobjects".data, 4),
   ("syscolumns".data, 4), ("waitfor".data, 4), ("benchmark".data, 4),
   ("pg_sleep".data, 4), ("sp_".data, 4),
   ("declare".data, 3), ("cast".data, 3), ("convert".data, 3),
   ("concat".data, 3), ("mysql".data, 3), ("version".data, 3),
   ("user".data, 3), ("database".data, 3),
   ("select".data, 2), ("insert".data, 2), ("update".data, 2),
   ("create".data, 2), ("alter".data, 2), ("substring".data, 2),
   ("ascii".data, 2), ("char".data, 2),
   ("where".data, 1), ("and".data, 1), ("from".data, 1), ("order".data, 1),
   ("group".data, 1), ("having".data, 1), ("join".data, 1), ("inner".data, 1),
   ("left".data, 1), ("right".data, 1)]

/-- Local `attack_patterns` dict of `enhanced_feature_extraction`, with
severity weights, in source order, 35 entries. -/
def attack_patterns : List (RE × Nat) :=
  [(pat_tautology, 5), (pat_union_select, 5), (pat_drop_table, 5),
   (pat_exec_call, 4), (pat_url_enc, 2), (pat_hex, 3), (pat_sql_comment, 2),
   (pat_block_comment, 2), (pat_sysvar, 3), (pat_waitfor, 4),
   (pat_benchmark_call, 4), (pat_pg_sleep_call, 4), (pat_info_schema, 5),
   (pat_char_call, 3), (pat_ascii_call, 2), (pat_substring_call, 2),
   (pat_openrowset_call, 5), (pat_bulk_insert, 5), (pat_script_gt, 3),
   (pat_lt_script, 3), (pat_javascript, 3), (pat_current_user, 2),
   (pat_session_user, 2), (pat_system_user, 2), (pat_host_name, 2),
   (pat_db_name, 2), (pat_at_version, 4), (pat_at_servername, 3),
   (pat_load_file_call, 5), (pat_into_outfile, 5), (pat_load_data_infile, 5),
   (pat_grant, 3), (pat_revoke, 3), (pat_shutdown, 5), (pat_kill, 4)]

/-- Maximum nesting depth of parentheses (CATEGORY 7), with the running
counter clamped at zero on unmatched close parens. -/
def maxNesting (text : Query) : Nat :=
  (text.foldl
    (fun (st : Nat × Nat) c =>
      if c = '(' then (st.1 + 1, max st.2 (st.1 + 1))
      else if c = ')' then (st.1 - 1, st.2)
      else st)
    (0, 0)).2

/-- Python `str.split()`: split on whitespace runs, dropping empty tokens. -/
def pySplitAux : Query → Query → List Query
  | [], w => if w = [] then [] else [w.reverse]
  | c :: t, w =>
    if pyIsSpace c then
      (if w = [] then pySplitAux t [] else w.reverse :: pySplitAux t [])
    else pySplitAux t (c :: w)

/-- Python `text.split()`. -/
def pySplit (text : Query) : List Query := pySplitAux text []

/-- CATEGORY 3: the 30 character-level slots. -/
def charFeatures (text : Query) : List ℚ :=
  [(text.length : ℚ), (pyCount [sq] text : ℚ), (pyCount [dq] text : ℚ),
   (pyCount ['('] text : ℚ), (pyCount [')'] text : ℚ),
   (pyCount ['['] text : ℚ), (pyCount [']'] text : ℚ),
   (pyCount [Char.ofNat 123] text : ℚ), (pyCount [Char.ofNat 125] text : ℚ),
   (pyCount [';'] text : ℚ), (pyCount [','] text : ℚ),
   (pyCount ['='] text : ℚ), (pyCount ['<'] text : ℚ),
   (pyCount ['>'] text : ℚ), (pyCount ['!'] text : ℚ),
   (pyCount ['?'] text : ℚ), (pyCount ['&'] text : ℚ),
   (pyCount ['|'] text : ℚ), (pyCount ['%'] text : ℚ),
   (pyCount ['*'] text : ℚ), (pyCount ['+'] text : ℚ),
   (pyCount ['-'] text : ℚ), (pyCount ['/'] text : ℚ),
   (pyCount ['\\'] text : ℚ), (pyCount ['_'] text : ℚ),
   (pyCount ['$'] text : ℚ), (pyCount ['@'] text : ℚ),
   (pyCount ['#'] text : ℚ), (pyCount ['^'] text : ℚ),
   (pyCount ['~'] text : ℚ)]

/-- CATEGORY 9: character-class fractions (the source's ratio features). -/
def classFractions (text : Query) : List ℚ :=
  if 0 < text.length then
    [((text.filter Char.isAlpha).length : ℚ) / (text.length : ℚ),
     ((text.filter Char.isDigit).length : ℚ) / (text.length : ℚ),
     ((text.filter pyIsSpace).length : ℚ) / (text.length : ℚ),
     ((text.filter (fun c => !c.isAlphanum && !pyIsSpace c)).length : ℚ)
       / (text.length : ℚ)]
  else [0, 0, 0, 0]

/-- CATEGORY 10: function calls, keyword density, average and maximum word
length. -/
def lexicalFeatures (text : Query) : List ℚ :=
  let text_lower := pyLower text
  let function_calls := findallCount pat_func_call text_lower
  let total_keywords :=
    (sql_keywords.map (fun p => wholeWordCount p.1 text_lower)).sum
  let words := pySplit text
  let keyword_density : ℚ :=
    if 0 < words.length then (total_keywords : ℚ) / (words.length : ℚ) else 0
  let avg_word_length : ℚ :=
    if words = [] then 0
    else ((words.map List.length).sum : ℚ) / (words.length : ℚ)
  let max_word_length : ℚ := ((words.map List.length).foldr max 0 : ℚ)
  [(function_calls : ℚ), keyword_density, avg_word_length, max_word_length]

/-- The feature list before padding/truncation, categories 1-10 concatenated
in source order.  `ent` models the Shannon-entropy slot (CATEGORY 8), whose
floating-point `np.log2` value has no exact rational form. -/
def featureListRaw (ent : Query → ℚ) (text : Query) : List ℚ :=
  (sql_keywords.map (fun p => ((wholeWordCount p.1 (pyLower text) * p.2 : Nat) : ℚ)))
    ++ ((attack_patterns.map (fun p => ((findallCount p.1 (pyLower text) * p.2 : Nat) : ℚ)))
    ++ (charFeatures text
    ++ ([((pyCount [sq] text % 2 : Nat) : ℚ), ((pyCount [dq] text % 2 : Nat) : ℚ)]
    ++ ([(findallCount pat_url_enc_full text : ℚ),
         (findallCount pat_hex_full (pyLower text) : ℚ)]
    ++ ([(findallCount pat_line_comment_ml text : ℚ),
         (findallCount pat_block_comment_dotall text : ℚ)]
    ++ ([(maxNesting text : ℚ)]
    ++ ([if 0 < text.length then ent text else 0]
    ++ (classFractions text
    ++ lexicalFeatures text))))))))

/-- `EnhancedSQLInjectionDetector.enhanced_feature_extraction` for a single
text: the computed features padded with zeros up to 154 and truncated at
154 (`while len < 154: append(0)` then `[:154]`). -/
def enhanced_feature_extraction (ent : Query → ℚ) (text : Query) : List ℚ :=
  (featureListRaw ent text
    ++ List.replicate (154 - (featureListRaw ent text).length) 0).take 154

end EnhancedSQLInjectionDetector

/-- Detector state: `model_loaded`, the optional opaque ensemble model
(whose `predict` may raise, modelled by `Except`, and returns the first
label of its output array, modelled by `Nat`), and `model_accuracy`. -/
structure EnhancedSQLInjectionDetector where
  model_loaded : Bool
  ensemble_model : Option (List ℚ → Except Unit Nat)
  model_accuracy : ℚ

namespace EnhancedSQLInjectionDetector

/-- The benign validation fast-path dictionary returned for empty or
non-string queries. -/
def validationVerdict (query : Option Query) : Verdict :=
  { query := query, prediction := "SAFE", is_malicious := false,
    risk_score := 0, confidence := 1, indicators := [],
    method := "validation", model_accuracy := none }

/-- The heuristic-only (fallback pattern-based) verdict: threshold 15 and
the fallback confidence formulas. -/
def fallbackVerdict (q : Query) : Verdict :=
  let fallback_result := FallbackSQLDetector.analyze_query q
  let risk_score := fallback_result.risk_score
  let is_malicious := 15 ≤ risk_score
  let confidence : ℚ :=
    if is_malicious then min ((risk_score : ℚ) / 50) 1
    else max (1 - (risk_score : ℚ) / 50) 0.5
  { query := some q,
    prediction := if is_malicious then "MALICIOUS" else "SAFE",
    is_malicious := is_malicious,
    risk_score := risk_score, confidence := confidence,
    indicators := fallback_result.indicators,
    method := "fallback_patterns", model_accuracy := none }

/-- The ML-path verdict: the model's label decides, the heuristic result
provides `risk_score` and `indicators`, and confidence starts at 0.95/0.85
and is boosted by `risk_score / 100` capped at 0.99 when the heuristic
risk score is positive. -/
def mlVerdict (accuracy : ℚ) (q : Query) (ml_prediction : Nat) : Verdict :=
  let fallback_result := FallbackSQLDetector.analyze_query q
  let confidence0 : ℚ := if ml_prediction = 1 then 0.95 else 0.85
  let confidence : ℚ :=
    if 0 < fallback_result.risk_score then
      min (confidence0 + (fallback_result.risk_score : ℚ) / 100) 0.99
    else confidence0
  { query := some q,
    prediction := if ml_prediction = 1 then "MALICIOUS" else "SAFE",
    is_malicious := ml_prediction ≠ 0,
    risk_score := fallback_result.risk_score, confidence := confidence,
    indicators := fallback_result.indicators,
    method := "ml_model", model_accuracy := some accuracy }

/-- `EnhancedSQLInjectionDetector.predict`.  `none` models a non-string
argument; `not query or not isinstance(query, str)` short-circuits to the
validation verdict.  A loaded model is consulted on the 154-feature vector;
an exception during inference (the `Except.error` case) falls through to
the pattern-based fallback, as does an unloaded model. -/
def predict (ent : Query → ℚ) (self : EnhancedSQLInjectionDetector)
    (query : Option Query) : Verdict :=
  match query with
  | none => validationVerdict none
  | some q =>
    if q = [] then validationVerdict (some q)
    else
      match (if self.model_loaded then self.ensemble_model else none) with
      | some m =>
        match m (enhanced_feature_extraction ent q) with
        | .ok ml_prediction => mlVerdict self.model_accuracy q ml_prediction
        | .error _ => fallbackVerdict q
      | none => fallbackVerdict q

end EnhancedSQLInjectionDetector

/-- Zero entropy model, used to instantiate the entropy parameter on
concrete inputs. -/
def entZero : Query → ℚ := fun _ => 0

/-- A detector whose model failed to load (fallback-only operation). -/
def detectorNoModel : EnhancedSQLInjectionDetector :=
  { model_loaded := false, ensemble_model := none, model_accuracy := 0.87 }

/-- A detector whose loaded model raises on every inference call. -/
def detectorRaising : EnhancedSQLInjectionDetector :=
  { model_loaded := true, ensemble_model := some (fun _ => Except.error ()),
    model_accuracy := 0.87 }

/-- A detector whose loaded model labels every input 1 (malicious). -/
def detectorConstOne : EnhancedSQLInjectionDetector :=
  { model_loaded := true, ensemble_model := some (fun _ => Except.ok 1),
    model_accuracy := 0.87 }

set_option maxRecDepth 400000

set_option maxHeartbeats 1000000

/-- A prefix of `s` is a prefix of `s ++ u`. -/
theorem isPrefixOf_append_right (sub s u : Query)
    (h : sub.isPrefixOf s = true) : sub.isPrefixOf (s ++ u) = true := by
  induction sub generalizing s with
  | nil => simp [List.isPrefixOf]
  | cons a as ih =>
    cases s with
    | nil => simp [List.isPrefixOf] at h
    | cons b bs =>
      simp only [List.isPrefixOf, List.cons_append, Bool.and_eq_true] at h ⊢
      exact ⟨h.1, ih bs h.2⟩

/-- A prefix is no longer than the list. -/
theorem length_le_of_isPrefixOf (sub s : Query)
    (h : sub.isPrefixOf s = true) : sub.length ≤ s.length := by
  induction sub generalizing s with
  | nil => simp
  | cons a as ih =>
    cases s with
    | nil => simp [List.isPrefixOf] at h
    | cons b bs =>
      simp only [List.isPrefixOf, Bool.and_eq_true] at h
      simpa [Nat.succ_le_succ_iff] using ih bs h.2

/-- A short-enough prefix of `s ++ u` is already a prefix of `s`. -/
theorem isPrefixOf_of_append_of_le (sub s u : Query)
    (h : sub.isPrefixOf (s ++ u) = true) (hl : sub.length ≤ s.length) :
    sub.isPrefixOf s = true := by
  induction sub generalizing s with
  | nil => simp [List.isPrefixOf]
  | cons a as ih =>
    cases s with
    | nil => simp at hl
    | cons b bs =>
      simp only [List.cons_append, List.isPrefixOf, Bool.and_eq_true] at h ⊢
      exact ⟨h.1, ih bs h.2 (by simpa [Nat.succ_le_succ_iff] using hl)⟩

/-- No occurrence fits in a list shorter than the needle. -/
theorem pyCntAux_eq_zero_of_short (sub s : Query) (skip : Nat)
    (h : s.length < sub.length) : pyCntAux sub s skip = 0 := by
  induction s generalizing skip with
  | nil => simp [pyCntAux]
  | cons c t ih =>
    cases skip with
    | succ k =>
      simp only [pyCntAux]
      exact ih k (by simp at h; omega)
    | zero =>
      cases hb : sub.isPrefixOf (c :: t) with
      | true =>
        have := length_le_of_isPrefixOf sub (c :: t) hb
        simp at h this
        omega
      | false =>
        simp only [pyCntAux, hb, Bool.false_eq_true, if_false]
        exact ih 0 (by simp at h ⊢; omega)

/-- Appending on the right never decreases the occurrence count. -/
theorem pyCntAux_append_le (sub s u : Query) (skip : Nat) :
    pyCntAux sub s skip ≤ pyCntAux sub (s ++ u) skip := by
  induction s generalizing skip with
  | nil => simp [pyCntAux]
  | cons c t ih =>
    cases skip with
    | succ k =>
      simp only [List.cons_append, pyCntAux]
      exact ih k
    | zero =>
      rw [List.cons_append]
      cases hb : sub.isPrefixOf (c :: t) with
      | true =>
        have hb' : sub.isPrefixOf (c :: (t ++ u)) = true := by
          have := isPrefixOf_append_right sub (c :: t) u hb
          simpa using this
        simp only [pyCntAux, hb, hb', if_true, List.append_eq]
        exact Nat.add_le_add_left (ih _) 1
      | false =>
        cases hb2 : sub.isPrefixOf (c :: (t ++ u)) with
        | false =>
          simp only [pyCntAux, hb, hb2, Bool.false_eq_true, if_false,
            List.append_eq]
          exact ih 0
        | true =>
          have hlen : (c :: t).length < sub.length := by
            by_contra hcon
            push_neg at hcon
            have := isPrefixOf_of_append_of_le sub (c :: t) u
              (by simpa using hb2) hcon
            rw [this] at hb
            exact absurd hb (by decide)
          simp only [pyCntAux, hb, hb2, Bool.false_eq_true, if_false, if_true,
            List.append_eq]
          have h0 : pyCntAux sub t 0 = 0 :=
            pyCntAux_eq_zero_of_short sub t 0 (by simp at hlen; omega)
          omega

/-- Python `count` is monotone under appending on the right. -/
theorem pyCount_le_append (sub s u : Query) :
    pyCount sub s ≤ pyCount sub (s ++ u) := by
  by_cases hsub : sub = []
  · subst hsub; simp [pyCount]
  · simp only [pyCount, hsub, if_false]
    exact pyCntAux_append_le sub s u 0

/-- A prefix occurrence witnesses containment. -/
theorem pyIn_of_isPrefixOf (sub s : Query)
    (h : sub.isPrefixOf s = true) : pyIn sub s = true := by
  cases s with
  | nil => simpa [pyIn] using h
  | cons c t => simp [pyIn, h]

/-- Containment is preserved by appending on the right. -/
theorem pyIn_append_right (sub s u : Query)
    (h : pyIn sub s = true) : pyIn sub (s ++ u) = true := by
  induction s with
  | nil =>
    simp only [pyIn] at h
    exact pyIn_of_isPrefixOf sub u
      (by simpa using isPrefixOf_append_right sub [] u h)
  | cons c t ih =>
    simp only [pyIn, Bool.or_eq_true] at h
    rcases h with h | h
    · exact pyIn_of_isPrefixOf _ _ (by simpa using isPrefixOf_append_right sub (c :: t) u h)
    · have := ih h
      simp only [List.cons_append, pyIn, Bool.or_eq_true]
      exact Or.inr this

/-- A contained nonempty needle is counted at least once. -/
theorem pyCount_pos_of_pyIn (sub s : Query) (hsub : sub ≠ [])
    (h : pyIn sub s = true) : 0 < pyCount sub s := by
  simp only [pyCount, hsub, if_false]
  induction s with
  | nil =>
    cases sub with
    | nil => exact absurd rfl hsub
    | cons a as => simp [pyIn, List.isPrefixOf] at h
  | cons c t ih =>
    simp only [pyIn, Bool.or_eq_true] at h
    cases hb : sub.isPrefixOf (c :: t) with
    | true => simp [pyCntAux, hb]
    | false =>
      rcases h with h | h
      · rw [hb] at h; cases h
      · simp only [pyCntAux, hb, Bool.false_eq_true, if_false]
        exact ih h

/-- For a single character, Python `count` agrees with `List.count`. -/
theorem pyCount_singleton_eq_count (c : Char) (s : Query) :
    pyCount [c] s = s.count c := by
  simp only [pyCount, if_neg (by simp : ¬([c] : Query) = [])]
  induction s with
  | nil => simp [pyCntAux]
  | cons d t ih =>
    by_cases hcd : c = d
    · subst hcd
      have hb : ([c] : Query).isPrefixOf (c :: t) = true := by
        simp [List.isPrefixOf]
      simp [pyCntAux, hb, ih, List.count_cons, Nat.add_comm]
    · have hb : ([c] : Query).isPrefixOf (d :: t) = false := by
        simp [List.isPrefixOf, hcd]
      simp [pyCntAux, hb, ih, List.count_cons, Ne.symm hcd, hcd]

/-- A table-driven loop has positive total score iff it appended an
indicator, provided each step scores positively exactly when it appends. -/
theorem checkScore_pos_iff {α : Type} (f : α → Nat × List Indicator)
    (xs : List α) (h : ∀ x ∈ xs, (0 < (f x).1 ↔ (f x).2 ≠ [])) :
    (0 < FallbackSQLDetector.checkScore f xs ↔
      FallbackSQLDetector.checkInds f xs ≠ []) := by
  induction xs with
  | nil => simp [FallbackSQLDetector.checkScore, FallbackSQLDetector.checkInds]
  | cons x t ih =>
    have hx := h x (List.mem_cons_self x t)
    have ht := ih (fun y hy => h y (List.mem_cons_of_mem x hy))
    simp only [FallbackSQLDetector.checkScore, FallbackSQLDetector.checkInds,
      List.map_cons, List.sum_cons, List.flatten_cons] at ht ⊢
    have hsplit : 0 < (f x).1 + (List.map (fun y => (f y).1) t).sum ↔
        0 < (f x).1 ∨ 0 < (List.map (fun y => (f y).1) t).sum := by omega
    rw [hsplit]
    constructor
    · rintro (hp | hp) hnil
      · rw [List.append_eq_nil] at hnil
        exact (hx.mp hp) hnil.1
      · rw [List.append_eq_nil] at hnil
        exact (ht.mp hp) hnil.2
    · intro hne
      by_cases h1 : (f x).2 = []
      · by_cases h2 : (List.map (fun y => (f y).2) t).flatten = []
        · exact absurd (show (f x).2 ++ (List.map (fun y => (f y).2) t).flatten = []
            by simp [h1, h2]) hne
        · exact Or.inr (ht.mpr h2)
      · exact Or.inl (hx.mpr h1)

/-- Case analysis on the control flow of `predict` for a nonempty string:
either the loaded model returned a label (ML verdict), or it raised
(fallback verdict), or no model was available (fallback verdict). -/
theorem predict_cases (ent : Query → ℚ) (st : EnhancedSQLInjectionDetector)
    (q : Query) (hq : q ≠ []) :
    (∃ m l, (if st.model_loaded then st.ensemble_model else none) = some m ∧
        m (EnhancedSQLInjectionDetector.enhanced_feature_extraction ent q) = .ok l ∧
        EnhancedSQLInjectionDetector.predict ent st (some q)
          = EnhancedSQLInjectionDetector.mlVerdict st.model_accuracy q l) ∨
    ((∃ m e, (if st.model_loaded then st.ensemble_model else none) = some m ∧
        m (EnhancedSQLInjectionDetector.enhanced_feature_extraction ent q) = .error e) ∧
        EnhancedSQLInjectionDetector.predict ent st (some q)
          = EnhancedSQLInjectionDetector.fallbackVerdict q) ∨
    ((if st.model_loaded then st.ensemble_model else none) = none ∧
        EnhancedSQLInjectionDetector.predict ent st (some q)
          = EnhancedSQLInjectionDetector.fallbackVerdict q) := by
  simp only [EnhancedSQLInjectionDetector.predict, if_neg hq]
  split
  · split
    · next m heq =>
      split
      · next l hres => exact Or.inl ⟨m, l, heq, hres, rfl⟩
      · next e hres => exact Or.inr (Or.inl ⟨⟨m, e, heq, hres⟩, rfl⟩)
    · next heq => exact Or.inr (Or.inr ⟨heq, rfl⟩)
  · exact Or.inr (Or.inr ⟨rfl, rfl⟩)

/-- C1: an empty or non-string query short-circuits to the deterministic
benign validation verdict (`is_malicious = false`, `risk_score = 0`,
`confidence = 1`, no indicators, heuristic-only method tag), independently
of the detector state and of the feature extractor's entropy model — in
particular without consulting the heuristic scorer or the feature
extractor. -/
theorem predict_empty_or_nonstring_benign (ent : Query → ℚ)
    (st : EnhancedSQLInjectionDetector) (query : Option Query)
    (h : query = none ∨ query = some []) :
    EnhancedSQLInjectionDetector.predict ent st query
        = EnhancedSQLInjectionDetector.validationVerdict query ∧
    (EnhancedSQLInjectionDetector.predict ent st query).is_malicious = false ∧
    (EnhancedSQLInjectionDetector.predict ent st query).risk_score = 0 ∧
    (EnhancedSQLInjectionDetector.predict ent st query).confidence = 1 ∧
    (EnhancedSQLInjectionDetector.predict ent st query).indicators = [] ∧
    methodKind (EnhancedSQLInjectionDetector.predict ent st query)
        = MethodKind.HeuristicOnly := by
  rcases h with h | h <;> subst h
  · exact ⟨rfl, rfl, rfl, rfl, rfl, rfl⟩
  · exact ⟨rfl, rfl, rfl, rfl, rfl, rfl⟩

/-- C1 witness: the empty string hits the fast path on a concrete
detector. -/
theorem predict_empty_or_nonstring_benign_witness :
    (some ([] : Query) = none ∨ some ([] : Query) = some ([] : Query)) ∧
    EnhancedSQLInjectionDetector.predict entZero detectorNoModel (some [])
      = EnhancedSQLInjectionDetector.validationVerdict (some []) :=
  ⟨Or.inr rfl,
   (predict_empty_or_nonstring_benign entZero detectorNoModel (some [])
      (Or.inr rfl)).1⟩

/-- C2: `predict` is a total function into verdicts (the embedding is a
total Lean function, so no exception can escape): empty/non-string input
yields the validation verdict, a model that raises during inference is
caught and recovered by the heuristic-only (fallback) decision for that
call, and an absent model likewise yields the fallback verdict. -/
theorem predict_total_never_raises (ent : Query → ℚ)
    (st : EnhancedSQLInjectionDetector) :
    (EnhancedSQLInjectionDetector.predict ent st none
        = EnhancedSQLInjectionDetector.validationVerdict none) ∧
    (EnhancedSQLInjectionDetector.predict ent st (some [])
        = EnhancedSQLInjectionDetector.validationVerdict (some [])) ∧
    (∀ q m e, q ≠ [] → st.model_loaded = true → st.ensemble_model = some m →
        m (EnhancedSQLInjectionDetector.enhanced_feature_extraction ent q)
          = .error e →
        EnhancedSQLInjectionDetector.predict ent st (some q)
          = EnhancedSQLInjectionDetector.fallbackVerdict q) ∧
    (∀ q, q ≠ [] → st.model_loaded = false →
        EnhancedSQLInjectionDetector.predict ent st (some q)
          = EnhancedSQLInjectionDetector.fallbackVerdict q) ∧
    (∀ q, q ≠ [] → st.ensemble_model = none →
        EnhancedSQLInjectionDetector.predict ent st (some q)
          = EnhancedSQLInjectionDetector.fallbackVerdict q) := by
  refine ⟨rfl, rfl, ?_, ?_, ?_⟩
  · intro q m e hq hload hm herr
    rcases predict_cases ent st q hq with
      ⟨m', l, hscrut, hres, hpred⟩ | ⟨_, hpred⟩ | ⟨_, hpred⟩
    · rw [hload] at hscrut
      simp only [if_true] at hscrut
      have hmm : m = m' := by
        have := hm.symm.trans hscrut
        exact Option.some.inj this
      subst hmm
      rw [herr] at hres
      exact Except.noConfusion hres
    · exact hpred
    · exact hpred
  · intro q hq hload
    rcases predict_cases ent st q hq with
      ⟨m', l, hscrut, hres, hpred⟩ | ⟨_, hpred⟩ | ⟨_, hpred⟩
    · rw [hload] at hscrut
      simp at hscrut
    · exact hpred
    · exact hpred
  · intro q hq hm
    rcases predict_cases ent st q hq with
      ⟨m', l, hscrut, hres, hpred⟩ | ⟨_, hpred⟩ | ⟨_, hpred⟩
    · rw [hm] at hscrut
      simp at hscrut
    · exact hpred
    · exact hpred

/-- C2 witness: a concrete model that raises on every call is recovered by
the fallback verdict. -/
theorem predict_total_never_raises_witness :
    EnhancedSQLInjectionDetector.predict entZero detectorRaising
        (some ("a".data))
      = EnhancedSQLInjectionDetector.fallbackVerdict ("a".data) :=
  (predict_total_never_raises entZero detectorRaising).2.2.1 "a".data
    (fun _ => Except.error ()) () (by decide) rfl rfl rfl

/-- C9: for every nonempty string query the verdict's indicator list is
exactly the heuristic scorer's indicator list, on the ML path, on the
exception-recovery path, and on the heuristic-only path alike. -/
theorem verdict_indicators_always_heuristic (ent : Query → ℚ)
    (st : EnhancedSQLInjectionDetector) (q : Query) (hq : q ≠ []) :
    (EnhancedSQLInjectionDetector.predict ent st (some q)).indicators
      = (FallbackSQLDetector.analyze_query q).indicators := by
  rcases predict_cases ent st q hq with
    ⟨m, l, _, _, hpred⟩ | ⟨_, hpred⟩ | ⟨_, hpred⟩ <;> rw [hpred] <;> rfl

/-- C9 witness: a concrete query on a concrete detector. -/
theorem verdict_indicators_always_heuristic_witness :
    ("a".data ≠ ([] : Query)) ∧
    (EnhancedSQLInjectionDetector.predict entZero detectorNoModel
        (some ("a".data))).indicators
      = (FallbackSQLDetector.analyze_query ("a".data)).indicators :=
  ⟨by decide,
   verdict_indicators_always_heuristic entZero detectorNoModel "a".data
     (by decide)⟩

/-- The fallback verdict's decision bit is the threshold comparison. -/
theorem fallbackVerdict_is_malicious (q : Query) :
    (EnhancedSQLInjectionDetector.fallbackVerdict q).is_malicious
      = decide (15 ≤ (FallbackSQLDetector.analyze_query q).risk_score) := rfl

/-- The fallback verdict's confidence formula, spelled out. -/
theorem fallbackVerdict_confidence (q : Query) :
    (EnhancedSQLInjectionDetector.fallbackVerdict q).confidence
      = (if 15 ≤ (FallbackSQLDetector.analyze_query q).risk_score
          then min (((FallbackSQLDetector.analyze_query q).risk_score : ℚ) / 50) 1
          else max (1 - ((FallbackSQLDetector.analyze_query q).risk_score : ℚ) / 50)
            0.5) := rfl

/-- The ML verdict's decision bit is the truthiness of the label. -/
theorem mlVerdict_is_malicious (acc : ℚ) (q : Query) (l : Nat) :
    (EnhancedSQLInjectionDetector.mlVerdict acc q l).is_malicious
      = decide (l ≠ 0) := rfl

/-- The ML verdict's confidence formula, spelled out. -/
theorem mlVerdict_confidence (acc : ℚ) (q : Query) (l : Nat) :
    (EnhancedSQLInjectionDetector.mlVerdict acc q l).confidence
      = (if 0 < (FallbackSQLDetector.analyze_query q).risk_score
          then min ((if l = 1 then (0.95 : ℚ) else 0.85)
              + ((FallbackSQLDetector.analyze_query q).risk_score : ℚ) / 100) 0.99
          else (if l = 1 then (0.95 : ℚ) else 0.85)) := rfl

/-- C3: on the heuristic-only (fallback) path, `is_malicious` is exactly the
threshold test `risk_score >= 15`, confidence follows the fallback formulas,
benign verdicts have confidence at least 0.5, and all fallback confidences
lie in `[0, 1]`. -/
theorem heuristic_only_threshold_confidence (ent : Query → ℚ)
    (st : EnhancedSQLInjectionDetector) (q : Query) (hq : q ≠ [])
    (hmeth : (EnhancedSQLInjectionDetector.predict ent st (some q)).method
        = "fallback_patterns") :
    ((EnhancedSQLInjectionDetector.predict ent st (some q)).is_malicious = true ↔
        15 ≤ (FallbackSQLDetector.analyze_query q).risk_score) ∧
    (EnhancedSQLInjectionDetector.predict ent st (some q)).confidence
      = (if 15 ≤ (FallbackSQLDetector.analyze_query q).risk_score
          then min (((FallbackSQLDetector.analyze_query q).risk_score : ℚ) / 50) 1
          else max (1 - ((FallbackSQLDetector.analyze_query q).risk_score : ℚ) / 50)
            0.5) ∧
    ((EnhancedSQLInjectionDetector.predict ent st (some q)).is_malicious = false →
        (0.5 : ℚ) ≤ (EnhancedSQLInjectionDetector.predict ent st (some q)).confidence) ∧
    (0 : ℚ) ≤ (EnhancedSQLInjectionDetector.predict ent st (some q)).confidence ∧
    (EnhancedSQLInjectionDetector.predict ent st (some q)).confidence ≤ 1 := by
  have hfb : EnhancedSQLInjectionDetector.predict ent st (some q)
      = EnhancedSQLInjectionDetector.fallbackVerdict q := by
    rcases predict_cases ent st q hq with
      ⟨m, l, _, _, hpred⟩ | ⟨_, hpred⟩ | ⟨_, hpred⟩
    · rw [hpred] at hmeth
      have hml : (EnhancedSQLInjectionDetector.mlVerdict st.model_accuracy q l).method
          = "ml_model" := rfl
      rw [hml] at hmeth
      exact absurd hmeth (by decide)
    · exact hpred
    · exact hpred
  rw [hfb, fallbackVerdict_is_malicious, fallbackVerdict_confidence]
  by_cases h15 : 15 ≤ (FallbackSQLDetector.analyze_query q).risk_score
  · rw [if_pos h15]
    refine ⟨by simp [h15], rfl, ?_, ?_, min_le_right _ _⟩
    · intro hfalse
      simp [h15] at hfalse
    · exact le_min (by positivity) (by norm_num)
  · rw [if_neg h15]
    refine ⟨by simp [h15], rfl, ?_, ?_, ?_⟩
    · intro _
      exact le_max_right _ _
    · exact le_trans (by norm_num) (le_max_right _ _)
    · refine max_le ?_ (by norm_num)
      have : (0 : ℚ) ≤ ((FallbackSQLDetector.analyze_query q).risk_score : ℚ) / 50 := by
        positivity
      linarith

/-- C3 witness: a harmless one-character query on a detector without a
model. -/
theorem heuristic_only_threshold_confidence_witness :
    ("a".data ≠ ([] : Query)) ∧
    (EnhancedSQLInjectionDetector.predict entZero detectorNoModel
        (some ("a".data))).method = "fallback_patterns" ∧
    (0 : ℚ) ≤ (EnhancedSQLInjectionDetector.predict entZero detectorNoModel
        (some ("a".data))).confidence :=
  ⟨by decide, by decide,
   (heuristic_only_threshold_confidence entZero detectorNoModel "a".data
      (by decide) (by decide)).2.2.2.1⟩

/-- C4: on the model-backed path with a binary label, the verdict's
confidence equals `min(base + risk_score/100, 0.99)` where base is 0.95 for
a malicious label and 0.85 otherwise, and never exceeds 0.99. -/
theorem ml_path_confidence_formula (ent : Query → ℚ)
    (st : EnhancedSQLInjectionDetector) (q : Query)
    (m : List ℚ → Except Unit Nat) (l : Nat) (hq : q ≠ [])
    (hload : st.model_loaded = true) (hmod : st.ensemble_model = some m)
    (hres : m (EnhancedSQLInjectionDetector.enhanced_feature_extraction ent q)
        = .ok l)
    (hl : l = 0 ∨ l = 1) :
    (EnhancedSQLInjectionDetector.predict ent st (some q)).confidence
      = min ((if (EnhancedSQLInjectionDetector.predict ent st (some q)).is_malicious
              then (0.95 : ℚ) else 0.85)
          + ((FallbackSQLDetector.analyze_query q).risk_score : ℚ) / 100) 0.99 ∧
    (EnhancedSQLInjectionDetector.predict ent st (some q)).confidence ≤ 0.99 := by
  have hml : EnhancedSQLInjectionDetector.predict ent st (some q)
      = EnhancedSQLInjectionDetector.mlVerdict st.model_accuracy q l := by
    rcases predict_cases ent st q hq with
      ⟨m', l', hscrut, hres', hpred⟩ | ⟨⟨m', e, hscrut, hres'⟩, hpred⟩ | ⟨hscrut, hpred⟩
    · rw [hload] at hscrut
      simp only [if_true] at hscrut
      have hmm : m = m' := Option.some.inj (hmod.symm.trans hscrut)
      subst hmm
      rw [hres] at hres'
      have hll : l = l' := Except.ok.inj hres'
      subst hll
      exact hpred
    · rw [hload] at hscrut
      simp only [if_true] at hscrut
      have hmm : m = m' := Option.some.inj (hmod.symm.trans hscrut)
      subst hmm
      rw [hres] at hres'
      exact Except.noConfusion hres'
    · rw [hload] at hscrut
      simp only [if_true] at hscrut
      rw [hmod] at hscrut
      exact Option.noConfusion hscrut
  rw [hml, mlVerdict_is_malicious, mlVerdict_confidence]
  have hbase : (if (decide (l ≠ 0) : Bool) then (0.95 : ℚ) else 0.85)
      = (if l = 1 then (0.95 : ℚ) else 0.85) := by
    rcases hl with rfl | rfl <;> norm_num
  rw [hbase]
  by_cases hr : 0 < (FallbackSQLDetector.analyze_query q).risk_score
  · rw [if_pos hr]
    exact ⟨rfl, min_le_right _ _⟩
  · rw [if_neg hr]
    rw [Nat.eq_zero_of_not_pos hr]
    rcases hl with rfl | rfl <;>
      refine ⟨by norm_num, by norm_num⟩

/-- C4 witness: a concrete model that labels every input malicious. -/
theorem ml_path_confidence_formula_witness :
    ("a".data ≠ ([] : Query)) ∧
    detectorConstOne.ensemble_model = some (fun _ => Except.ok 1) ∧
    (EnhancedSQLInjectionDetector.predict entZero detectorConstOne
        (some ("a".data))).confidence ≤ 0.99 :=
  ⟨by decide, rfl,
   (ml_path_confidence_formula entZero detectorConstOne "a".data
      (fun _ => Except.ok 1) 1 (by decide) rfl rfl rfl (Or.inr rfl)).2⟩

/-- C5: the feature extractor returns exactly 154 slots for every input,
by zero-padding when fewer features are computed and truncating at 154. -/
theorem feature_vector_always_154 (ent : Query → ℚ) (q : Query) :
    (EnhancedSQLInjectionDetector.enhanced_feature_extraction ent q).length
      = 154 := by
  simp only [EnhancedSQLInjectionDetector.enhanced_feature_extraction,
    List.length_take, List.length_append, List.length_replicate]
  omega

/-- C10: the heuristic risk score is nonnegative and positive exactly when
the indicator list is nonempty: every check that adds to the score appends
one indicator, and every appended indicator comes with a strictly positive
increment. -/
theorem risk_positive_iff_indicators (q : Query) :
    0 ≤ (FallbackSQLDetector.analyze_query q).risk_score ∧
    (0 < (FallbackSQLDetector.analyze_query q).risk_score ↔
      (FallbackSQLDetector.analyze_query q).indicators ≠ []) := by
  refine ⟨Nat.zero_le _, ?_⟩
  by_cases hq : q = []
  · subst hq
    simp [FallbackSQLDetector.analyze_query]
  · have hall : ∀ p ∈ FallbackSQLDetector.sql_keywords, p.1 ≠ [] ∧ 0 < p.2 := by
      decide
    have hk : 0 < FallbackSQLDetector.checkScore
          (FallbackSQLDetector.keywordCheck (pyLower q))
          FallbackSQLDetector.sql_keywords ↔
        FallbackSQLDetector.checkInds
          (FallbackSQLDetector.keywordCheck (pyLower q))
          FallbackSQLDetector.sql_keywords ≠ [] := by
      apply checkScore_pos_iff
      intro p hp
      simp only [FallbackSQLDetector.keywordCheck]
      by_cases hin : pyIn p.1 (pyLower q) = true
      · rw [if_pos hin]
        have hpos : 0 < pyCount p.1 (pyLower q) :=
          pyCount_pos_of_pyIn _ _ (hall p hp).1 hin
        simp only [ne_eq, List.cons_ne_nil, not_false_eq_true, iff_true]
        exact Nat.mul_pos hpos (hall p hp).2
      · rw [if_neg hin]
        simp
    have hpat : 0 < FallbackSQLDetector.checkScore
          (FallbackSQLDetector.patternCheck (pyLower q))
          FallbackSQLDetector.attack_patterns ↔
        FallbackSQLDetector.checkInds
          (FallbackSQLDetector.patternCheck (pyLower q))
          FallbackSQLDetector.attack_patterns ≠ [] := by
      apply checkScore_pos_iff
      intro p _
      simp only [FallbackSQLDetector.patternCheck]
      by_cases hpos : 0 < findallCount p.1 (pyLower q)
      · rw [if_pos hpos]
        simp only [ne_eq, List.cons_ne_nil, not_false_eq_true, iff_true]
        omega
      · rw [if_neg hpos]
        simp
    have hch : 0 < FallbackSQLDetector.checkScore
          (FallbackSQLDetector.charCheck q)
          FallbackSQLDetector.suspicious_chars ↔
        FallbackSQLDetector.checkInds
          (FallbackSQLDetector.charCheck q)
          FallbackSQLDetector.suspicious_chars ≠ [] := by
      apply checkScore_pos_iff
      intro c _
      simp only [FallbackSQLDetector.charCheck]
      by_cases hpos : 1 < pyCount c q
      · rw [if_pos hpos]
        simp only [ne_eq, List.cons_ne_nil, not_false_eq_true, iff_true]
        omega
      · rw [if_neg hpos]
        simp
    have hs1 : 0 < (FallbackSQLDetector.singleQuoteCheck q).1 ↔
        (FallbackSQLDetector.singleQuoteCheck q).2 ≠ [] := by
      simp only [FallbackSQLDetector.singleQuoteCheck]
      split <;> simp
    have hs2 : 0 < (FallbackSQLDetector.doubleQuoteCheck q).1 ↔
        (FallbackSQLDetector.doubleQuoteCheck q).2 ≠ [] := by
      simp only [FallbackSQLDetector.doubleQuoteCheck]
      split <;> simp
    have hlen : 0 < (FallbackSQLDetector.lengthCheck q).1 ↔
        (FallbackSQLDetector.lengthCheck q).2 ≠ [] := by
      simp only [FallbackSQLDetector.lengthCheck]
      split <;> simp
    have hfc : 0 < (FallbackSQLDetector.funcallCheck (pyLower q)).1 ↔
        (FallbackSQLDetector.funcallCheck (pyLower q)).2 ≠ [] := by
      simp only [FallbackSQLDetector.funcallCheck]
      split
      · next h =>
        simp only [ne_eq, List.cons_ne_nil, not_false_eq_true, iff_true]
        omega
      · simp
    simp only [FallbackSQLDetector.analyze_query, if_neg hq]
    constructor
    · intro hpos hnil
      obtain ⟨⟨⟨⟨⟨⟨h1, h2⟩, h3⟩, h4⟩, h5⟩, h6⟩, h7⟩ :
          ((((((FallbackSQLDetector.checkInds
                (FallbackSQLDetector.keywordCheck (pyLower q))
                FallbackSQLDetector.sql_keywords = [] ∧
              FallbackSQLDetector.checkInds
                (FallbackSQLDetector.patternCheck (pyLower q))
                FallbackSQLDetector.attack_patterns = []) ∧
              FallbackSQLDetector.checkInds (FallbackSQLDetector.charCheck q)
                FallbackSQLDetector.suspicious_chars = []) ∧
              (FallbackSQLDetector.singleQuoteCheck q).2 = []) ∧
              (FallbackSQLDetector.doubleQuoteCheck q).2 = []) ∧
              (FallbackSQLDetector.lengthCheck q).2 = []) ∧
              (FallbackSQLDetector.funcallCheck (pyLower q)).2 = []) := by
        simpa only [List.append_eq_nil, and_assoc, ← and_assoc] using hnil
      have k1 : FallbackSQLDetector.checkScore
          (FallbackSQLDetector.keywordCheck (pyLower q))
          FallbackSQLDetector.sql_keywords = 0 :=
        Nat.eq_zero_of_not_pos (fun hc => (hk.mp hc) h1)
      have k2 : FallbackSQLDetector.checkScore
          (FallbackSQLDetector.patternCheck (pyLower q))
          FallbackSQLDetector.attack_patterns = 0 :=
        Nat.eq_zero_of_not_pos (fun hc => (hpat.mp hc) h2)
      have k3 : FallbackSQLDetector.checkScore (FallbackSQLDetector.charCheck q)
          FallbackSQLDetector.suspicious_chars = 0 :=
        Nat.eq_zero_of_not_pos (fun hc => (hch.mp hc) h3)
      have k4 : (FallbackSQLDetector.singleQuoteCheck q).1 = 0 :=
        Nat.eq_zero_of_not_pos (fun hc => (hs1.mp hc) h4)
      have k5 : (FallbackSQLDetector.doubleQuoteCheck q).1 = 0 :=
        Nat.eq_zero_of_not_pos (fun hc => (hs2.mp hc) h5)
      have k6 : (FallbackSQLDetector.lengthCheck q).1 = 0 :=
        Nat.eq_zero_of_not_pos (fun hc => (hlen.mp hc) h6)
      have k7 : (FallbackSQLDetector.funcallCheck (pyLower q)).1 = 0 :=
        Nat.eq_zero_of_not_pos (fun hc => (hfc.mp hc) h7)
      omega
    · intro hne
      by_contra hpos
      have hz : FallbackSQLDetector.checkScore
            (FallbackSQLDetector.keywordCheck (pyLower q))
            FallbackSQLDetector.sql_keywords = 0 ∧
          FallbackSQLDetector.checkScore
            (FallbackSQLDetector.patternCheck (pyLower q))
            FallbackSQLDetector.attack_patterns = 0 ∧
          FallbackSQLDetector.checkScore (FallbackSQLDetector.charCheck q)
            FallbackSQLDetector.suspicious_chars = 0 ∧
          (FallbackSQLDetector.singleQuoteCheck q).1 = 0 ∧
          (FallbackSQLDetector.doubleQuoteCheck q).1 = 0 ∧
          (FallbackSQLDetector.lengthCheck q).1 = 0 ∧
          (FallbackSQLDetector.funcallCheck (pyLower q)).1 = 0 := by
        omega
      have e1 := not_imp_not.mpr hk.mpr (by omega : ¬0 < FallbackSQLDetector.checkScore
        (FallbackSQLDetector.keywordCheck (pyLower q)) FallbackSQLDetector.sql_keywords)
      have e2 := not_imp_not.mpr hpat.mpr (by omega : ¬0 < FallbackSQLDetector.checkScore
        (FallbackSQLDetector.patternCheck (pyLower q)) FallbackSQLDetector.attack_patterns)
      have e3 := not_imp_not.mpr hch.mpr (by omega : ¬0 < FallbackSQLDetector.checkScore
        (FallbackSQLDetector.charCheck q) FallbackSQLDetector.suspicious_chars)
      have e4 := not_imp_not.mpr hs1.mpr (by omega : ¬0 < (FallbackSQLDetector.singleQuoteCheck q).1)
      have e5 := not_imp_not.mpr hs2.mpr (by omega : ¬0 < (FallbackSQLDetector.doubleQuoteCheck q).1)
      have e6 := not_imp_not.mpr hlen.mpr (by omega : ¬0 < (FallbackSQLDetector.lengthCheck q).1)
      have e7 := not_imp_not.mpr hfc.mpr (by omega : ¬0 < (FallbackSQLDetector.funcallCheck (pyLower q)).1)
      simp only [ne_eq, not_not] at e1 e2 e3 e4 e5 e6 e7
      exact hne (by rw [e1, e2, e3, e4, e5, e6, e7]; rfl)

/-- C6 counterexample: the query consisting of the characters of `se'lect`
has an odd single-quote count and risk score 15, yet removing the quote
yields `select`, whose risk score is 3 (the removal merges letters into the
keyword `select`), so the total difference is 12, less than 15. -/
theorem quote_imbalance_counterexample :
    pyCount [sq] ("se".data ++ sq :: "lect".data) % 2 = 1 ∧
    (FallbackSQLDetector.analyze_query ("se".data ++ sq :: "lect".data)).risk_score
      = 15 ∧
    (FallbackSQLDetector.analyze_query ("se".data ++ "lect".data)).risk_score
      = 3 ∧
    ¬((FallbackSQLDetector.analyze_query ("se".data ++ "lect".data)).risk_score
        + 15
      ≤ (FallbackSQLDetector.analyze_query
          ("se".data ++ sq :: "lect".data)).risk_score) := by
  refine ⟨by decide, by decide, by decide, by decide⟩

/-- C6 amended: for a query with an odd number of single quotes, the
quote-imbalance component of the risk score is exactly 15 more than for the
same query with one single quote removed (and the total risk score is at
least 15); the difference of the TOTAL risk scores can be below 15 because
removing the quote can enable other contributions, such as merging letters
into a recognized keyword. -/
theorem quote_imbalance_component_amended (a b : Query)
    (hodd : pyCount [sq] (a ++ sq :: b) % 2 = 1) :
    (FallbackSQLDetector.singleQuoteCheck (a ++ sq :: b)).1
      = (FallbackSQLDetector.singleQuoteCheck (a ++ b)).1 + 15 ∧
    15 ≤ (FallbackSQLDetector.analyze_query (a ++ sq :: b)).risk_score := by
  have hcnt : pyCount [sq] (a ++ sq :: b) = a.count sq + (b.count sq + 1) := by
    rw [pyCount_singleton_eq_count, List.count_append, List.count_cons_self]
  have hcnt' : pyCount [sq] (a ++ b) = a.count sq + b.count sq := by
    rw [pyCount_singleton_eq_count, List.count_append]
  have h1 : (FallbackSQLDetector.singleQuoteCheck (a ++ sq :: b)).1 = 15 := by
    simp only [FallbackSQLDetector.singleQuoteCheck]
    rw [if_pos hodd]
  have h0 : (FallbackSQLDetector.singleQuoteCheck (a ++ b)).1 = 0 := by
    simp only [FallbackSQLDetector.singleQuoteCheck]
    rw [if_neg]
    rw [hcnt']
    rw [hcnt] at hodd
    omega
  refine ⟨by rw [h1, h0], ?_⟩
  have hne : (a ++ sq :: b) ≠ [] := by simp
  simp only [FallbackSQLDetector.analyze_query, if_neg hne]
  omega

/-- C6 amended witness: the `se'lect` example instantiates the amended
claim. -/
theorem quote_imbalance_component_amended_witness :
    pyCount [sq] ("se".data ++ sq :: "lect".data) % 2 = 1 ∧
    (FallbackSQLDetector.singleQuoteCheck ("se".data ++ sq :: "lect".data)).1
      = (FallbackSQLDetector.singleQuoteCheck ("se".data ++ "lect".data)).1
        + 15 :=
  ⟨by decide,
   (quote_imbalance_component_amended "se".data "lect".data (by decide)).1⟩

/-- C7 counterexample: `ab--` is benign (risk 5, from the end-anchored SQL
comment pattern), and appending the recognized keyword `user` destroys that
end-anchored pattern match, so the total risk score DECREASES to 3. -/
theorem append_keyword_counterexample :
    (("user".data, 3) ∈ FallbackSQLDetector.sql_keywords) ∧
    (FallbackSQLDetector.analyze_query "ab--".data).risk_score = 5 ∧
    (FallbackSQLDetector.analyze_query "ab--".data).risk_score < 15 ∧
    (FallbackSQLDetector.analyze_query ("ab--".data ++ "user".data)).risk_score
      = 3 ∧
    (FallbackSQLDetector.analyze_query ("ab--".data ++ "user".data)).risk_score
      < (FallbackSQLDetector.analyze_query "ab--".data).risk_score := by
  refine ⟨by decide, by decide, by decide, by decide, by decide⟩

/-- C7 amended: appending a recognized keyword to a benign query never
decreases the KEYWORD component of the risk score (substring counts are
monotone under appending); the TOTAL risk score can decrease because
appending can destroy a match of the end-anchored comment pattern
`--\s*$`. -/
theorem append_keyword_keyword_component_mono (q kw : Query) (w : Nat)
    (_hmem : (kw, w) ∈ FallbackSQLDetector.sql_keywords)
    (_hben : (FallbackSQLDetector.analyze_query q).risk_score < 15) :
    FallbackSQLDetector.checkScore
        (FallbackSQLDetector.keywordCheck (pyLower q))
        FallbackSQLDetector.sql_keywords
      ≤ FallbackSQLDetector.checkScore
          (FallbackSQLDetector.keywordCheck (pyLower (q ++ kw)))
          FallbackSQLDetector.sql_keywords := by
  have hlow : pyLower (q ++ kw) = pyLower q ++ pyLower kw := by
    simp [pyLower]
  rw [hlow]
  unfold FallbackSQLDetector.checkScore
  apply List.sum_le_sum
  intro p hp
  simp only [FallbackSQLDetector.keywordCheck]
  by_cases hin : pyIn p.1 (pyLower q) = true
  · rw [if_pos hin, if_pos (pyIn_append_right _ _ _ hin)]
    exact Nat.mul_le_mul (pyCount_le_append _ _ _) (le_refl p.2)
  · rw [if_neg hin]
    exact Nat.zero_le _

/-- C7 amended witness: `ab--` is benign and `user` is a recognized
keyword. -/
theorem append_keyword_keyword_component_mono_witness :
    (("user".data, 3) ∈ FallbackSQLDetector.sql_keywords) ∧
    (FallbackSQLDetector.analyze_query "ab--".data).risk_score < 15 ∧
    FallbackSQLDetector.checkScore
        (FallbackSQLDetector.keywordCheck (pyLower "ab--".data))
        FallbackSQLDetector.sql_keywords
      ≤ FallbackSQLDetector.checkScore
          (FallbackSQLDetector.keywordCheck (pyLower ("ab--".data ++ "user".data)))
          FallbackSQLDetector.sql_keywords :=
  ⟨by decide, by decide,
   append_keyword_keyword_component_mono "ab--".data "user".data 3
     (by decide) (by decide)⟩

/-- C8 counterexample: the extractor's keyword table has 42 entries, not 30,
so on input `ascii` slot 30 holds the weighted whole-word count of the 31st
keyword `ascii` (namely 2), while the first attack-pattern feature (the
claimed occupant of slot 30) is 0 on that input. -/
theorem keyword_slot_layout_counterexample :
    EnhancedSQLInjectionDetector.sql_keywords.length = 42 ∧
    EnhancedSQLInjectionDetector.sql_keywords.length ≠ 30 ∧
    (EnhancedSQLInjectionDetector.enhanced_feature_extraction entZero
        "ascii".data).getD 30 0 = 2 ∧
    ((findallCount pat_tautology (pyLower "ascii".data) * 5 : Nat) : ℚ) = 0 ∧
    (2 : ℚ) ≠ 0 := by
  refine ⟨rfl, by decide, by decide, by decide, by decide⟩

/-- C8 amended: the weighted-keyword category occupies exactly 42 slots,
one per keyword of the extractor's table (case-insensitive whole-word count
times its 1-5 severity weight), so the 35 attack-pattern slots begin at
vector index 42; this layout is fixed for every input and every entropy
model. -/
theorem feature_slot_layout_amended (ent : Query → ℚ) (q : Query) :
    EnhancedSQLInjectionDetector.sql_keywords.length = 42 ∧
    EnhancedSQLInjectionDetector.attack_patterns.length = 35 ∧
    (EnhancedSQLInjectionDetector.enhanced_feature_extraction ent q).take 42
      = EnhancedSQLInjectionDetector.sql_keywords.map
          (fun p => ((wholeWordCount p.1 (pyLower q) * p.2 : Nat) : ℚ)) ∧
    ((EnhancedSQLInjectionDetector.enhanced_feature_extraction ent q).drop 42).take 35
      = EnhancedSQLInjectionDetector.attack_patterns.map
          (fun p => ((findallCount p.1 (pyLower q) * p.2 : Nat) : ℚ)) := by
  obtain ⟨R, hraw⟩ : ∃ R, EnhancedSQLInjectionDetector.featureListRaw ent q
      = EnhancedSQLInjectionDetector.sql_keywords.map
          (fun p => ((wholeWordCount p.1 (pyLower q) * p.2 : Nat) : ℚ))
        ++ (EnhancedSQLInjectionDetector.attack_patterns.map
            (fun p => ((findallCount p.1 (pyLower q) * p.2 : Nat) : ℚ)) ++ R) :=
    ⟨_, rfl⟩
  have hK : (EnhancedSQLInjectionDetector.sql_keywords.map
      (fun p => ((wholeWordCount p.1 (pyLower q) * p.2 : Nat) : ℚ))).length = 42 := by
    rw [List.length_map]
    rfl
  have hP : (EnhancedSQLInjectionDetector.attack_patterns.map
      (fun p => ((findallCount p.1 (pyLower q) * p.2 : Nat) : ℚ))).length = 35 := by
    rw [List.length_map]
    rfl
  have hext : EnhancedSQLInjectionDetector.enhanced_feature_extraction ent q
      = (EnhancedSQLInjectionDetector.featureListRaw ent q
          ++ List.replicate
            (154 - (EnhancedSQLInjectionDetector.featureListRaw ent q).length) 0).take
          154 := rfl
  rw [hraw] at hext
  have hK154 := hK.le.trans (by norm_num : (42 : Nat) ≤ 154)
  refine ⟨rfl, rfl, ?_, ?_⟩
  · rw [hext, List.take_take]
    rw [show (42 ⊓ 154 : Nat) = 42 by norm_num]
    rw [List.append_assoc]
    exact List.take_left' hK
  · rw [hext, List.append_assoc]
    rw [List.take_append_eq_append_take]
    rw [List.take_of_length_le hK154]
    rw [List.drop_left' hK]
    rw [hK]
    rw [List.append_assoc]
    rw [List.take_take]
    rw [show (35 ⊓ (154 - 42) : Nat) = 35 by norm_num]
    exact List.take_left' hP

end Shield
